import Mathlib

/-
Shallow embedding of the jordicore/mcpbackend capture scripts.

The repository is a set of near-duplicate Puppeteer scripts that log into the
Autocab365 portal and capture Power BI network traffic.  The definitions below
are translated from the source files:

  * src/scraper.js, first document (the main IIFE, lines 27-184): environment
    validation, headless launch, straight-line login inside a try block,
    an iframe wait with a swallowed timeout, a response handler filtering on
    two URL substrings, a fixed wait window, an unconditional file write, and
    browser.close on both the success path and the catch path.
  * src/scraper.js, third document (targeted iframe capture): a 20-attempt
    polling loop for a specific iframe, closing the browser and returning
    when the loop exhausts.
  * src/unnamed/part_001 (deep capture mode): CDP request handler, no
    environment validation, a top-level .catch that only logs.
  * src/unnamed/part_003 and part_004: request handlers storing the raw post
    data string, and a conditional persistence step that skips the write when
    the buffer is empty and prints a distinct diagnostic instead.

JSON.parse is a runtime library routine, so it is modelled as an oracle
argument of type String -> Option J for an arbitrary payload type J.
Timestamps are not modelled (no claim depends on them).
-/

namespace AutocabCapture

/-- Substring test on the underlying character lists; models the JavaScript
String.prototype.includes used by every URL filter in the sources. -/
def listIsPref : List Char → List Char → Bool
  | [], _ => true
  | _ :: _, [] => false
  | a :: as, b :: bs => a == b && listIsPref as bs

/-- Helper for includesSub: does the pattern occur at any position. -/
def listHasSub (pat : List Char) : List Char → Bool
  | [] => listIsPref pat []
  | c :: rest => listIsPref pat (c :: rest) || listHasSub pat rest

/-- JavaScript s.includes(pat) for the non-empty patterns used in the repo. -/
def includesSub (s pat : String) : Bool :=
  listHasSub pat.data s.data

/-- JavaScript string truthiness: a string is truthy iff it is non-empty. -/
def strTruthy (s : String) : Bool :=
  !(s.data.isEmpty)

/-- JavaScript a || b on optional strings (undefined or empty both fall
through to b), as in scraper.js lines 27-28. -/
def jsOr (a b : Option String) : Option String :=
  match a with
  | some s => if strTruthy s then some s else b
  | none => b

/-- JavaScript x || null on an optional string: empty or missing becomes
null; used for postData and the authorization header in part_001/part_003. -/
def jsOrNull (a : Option String) : Option String :=
  match a with
  | some s => if strTruthy s then some s else none
  | none => none

/-- Truthiness of an optional string (undefined is falsy). -/
def jsTruthy (a : Option String) : Bool :=
  match a with
  | some s => strTruthy s
  | none => false

/-- The dedicated-capacity endpoint substring of the URL filter
(scraper.js line 126). -/
def patDedicated : String := "pbidedicated.windows.net"

/-- The query-execution-service path of the URL filter
(scraper.js line 126). -/
def patQuery : String := "/QueryExecutionService/automatic/public/query"

/-- The powerbi.com substring used by the part_001 filter. -/
def patPowerbi : String := "powerbi.com"

/-- Substrings of the part_003 filter conjunction. -/
def patQes : String := "QueryExecutionService"

/-- Second substring of the part_003 filter conjunction. -/
def patPublicQuery : String := "/public/query"

/-- URL filter of the scraper.js response handler (line 126): the
dedicated-capacity substring or the query-execution-service path. -/
def matchesFilter (u : String) : Bool :=
  includesSub u patDedicated || includesSub u patQuery

/-- URL filter of the part_001 request handlers (lines 27 and 98 there). -/
def matchesFilter001 (u : String) : Bool :=
  includesSub u patDedicated || includesSub u patPowerbi

/-- URL filter of the part_003 request handler (line 104 there). -/
def matchesFilter003 (u : String) : Bool :=
  includesSub u patQes && includesSub u patPublicQuery

/-- A body value as stored by scraper.js: the JSON.parse result when parsing
succeeds, the raw string otherwise (scraper.js lines 130-146). -/
inductive StoredBody (J : Type) where
  | parsed (j : J)
  | raw (s : String)
deriving DecidableEq, Repr

/-- Body storage rule of scraper.js: try JSON.parse, fall back to the raw
string (the two inner try/catch blocks at lines 131-135 and 141-145). -/
def storedOf {J : Type} (parse : String → Option J) (s : String) : StoredBody J :=
  match parse s with
  | some j => StoredBody.parsed j
  | none => StoredBody.raw s

/-- One record of the scraper.js capture buffer (lines 150-155); the
timestamp field is not modelled. -/
structure CapturedRecord (J : Type) where
  url : String
  requestBody : Option (StoredBody J)
  responseBody : Option (StoredBody J)
deriving DecidableEq, Repr

/-- One network event as seen by the scraper.js response handler.
postData models req.postData() (undefined or a string); textResult models
await res.text(), which either throws (error) or yields a string; outerFault
models any exception raised outside the two inner try/catch blocks (for
example from req.postData() or from the push), which lands in the outer
catch at lines 157-160. -/
structure RespEvent where
  url : String
  postData : Option String
  textResult : Except Unit String
  outerFault : Bool

/-- requestBody computation of scraper.js lines 128-136: null when postData
is absent or empty, otherwise parsed-or-raw. -/
def scraperRequestBody {J : Type} (parse : String → Option J) :
    Option String → Option (StoredBody J)
  | none => none
  | some s => if strTruthy s then some (storedOf parse s) else none

/-- responseBody computation of scraper.js lines 137-149: null when
res.text() throws or yields an empty string, otherwise parsed-or-raw. -/
def scraperResponseBody {J : Type} (parse : String → Option J) :
    Except Unit String → Option (StoredBody J)
  | Except.error _ => none
  | Except.ok t => if strTruthy t then some (storedOf parse t) else none

/-- The record pushed for a matching event (scraper.js lines 150-155). -/
def mkRecord {J : Type} (parse : String → Option J) (ev : RespEvent) :
    CapturedRecord J :=
  ⟨ev.url, scraperRequestBody parse ev.postData,
    scraperResponseBody parse ev.textResult⟩

/-- One step of the scraper.js response handler (lines 123-161): an outer
fault is swallowed by the outer catch and leaves the buffer unchanged; a
matching URL appends one record; anything else is discarded. -/
def handleResponse {J : Type} (parse : String → Option J)
    (buf : List (CapturedRecord J)) (ev : RespEvent) : List (CapturedRecord J) :=
  if ev.outerFault then buf
  else if matchesFilter ev.url then buf ++ [mkRecord parse ev]
  else buf

/-- The capture buffer produced by feeding an arrival-ordered event stream
through the scraper.js handler, starting from the empty array of line 118. -/
def handleStream {J : Type} (parse : String → Option J)
    (evs : List RespEvent) : List (CapturedRecord J) :=
  evs.foldl (handleResponse parse) []

/-- One request event as seen by the part_001 CDP handlers. -/
structure ReqEvent where
  url : String
  method : String
  postData : Option String
deriving DecidableEq, Repr

/-- One record of the part_001 capture buffer (type and timestamp fields
are constant strings and a clock read; not modelled). -/
structure ReqRecord where
  url : String
  method : String
  body : Option String
deriving DecidableEq, Repr

/-- The record pushed by the part_001 handlers. -/
def mkReqRecord001 (ev : ReqEvent) : ReqRecord :=
  ⟨ev.url, ev.method, jsOrNull ev.postData⟩

/-- One step of the part_001 Network.requestWillBeSent handlers (both the
portal client and the analytics client push into the same array). -/
def handleRequest001 (buf : List ReqRecord) (ev : ReqEvent) : List ReqRecord :=
  if matchesFilter001 ev.url then buf ++ [mkReqRecord001 ev] else buf

/-- The part_001 buffer over the merged arrival-ordered stream of both
attached CDP sessions. -/
def handleStream001 (evs : List ReqEvent) : List ReqRecord :=
  evs.foldl handleRequest001 []

/-- One request event as seen by the part_003 analytics page handler. -/
structure Req3Event where
  url : String
  authorization : Option String
  postData : Option String
deriving DecidableEq, Repr

/-- One record of the part_003 capture buffer (timestamp not modelled). -/
structure Req3Record where
  url : String
  authorization : Option String
  body : Option String
deriving DecidableEq, Repr

/-- One step of the part_003 request handler (lines 102-115 there): the raw
postData string is stored unchanged, with no JSON parse attempt. -/
def handleRequest003 (buf : List Req3Record) (ev : Req3Event) : List Req3Record :=
  if matchesFilter003 ev.url then
    buf ++ [⟨ev.url, jsOrNull ev.authorization, jsOrNull ev.postData⟩]
  else buf

/-- Externally visible actions of a run, used to count launches, closes,
writes and exit calls along each control path. -/
inductive Action where
  | launch
  | close
  | write
  | exitCall (code : Nat)
  | logMsg (m : String)
deriving DecidableEq, Repr

/-- Exit code of a modelled run: 1 when process.exit(1) was called, else 0
(normal termination). -/
def exitCodeOf (acts : List Action) : Nat :=
  if acts.contains (Action.exitCall 1) then 1 else 0

/-- The startup environment: the five variables consulted by the sources. -/
structure Env where
  autocabUser : Option String
  autocabPass : Option String
  username : Option String
  password : Option String
  companyId : Option String

/-- Effective user credential of scraper.js line 27. -/
def scraperUser (e : Env) : Option String := jsOr e.autocabUser e.username

/-- Effective password credential of scraper.js line 28. -/
def scraperPass (e : Env) : Option String := jsOr e.autocabPass e.password

/-- The startup validation predicate of scraper.js line 32: true when any of
the three required values is missing or empty. -/
def scraperMissingEnv (e : Env) : Bool :=
  !(jsTruthy (scraperUser e)) || !(jsTruthy (scraperPass e)) ||
    !(jsTruthy e.companyId)

/-- Diagnostic printed by scraper.js line 33. -/
def msgMissingEnv : String := "❌ Missing required environment variables in .env"

/-- Log line of scraper.js line 110. -/
def msgIframeFound : String := "📈 Power BI iframe detected."

/-- Log line of scraper.js line 114. -/
def msgIframeMissing : String :=
  "⚠️ No Power BI iframe detected – continuing to monitor network anyway."

/-- Log line of the part_001 top-level catch (line 106 there). -/
def msgTopError : String := "❌ Error:"

/-- Distinct empty-buffer diagnostic of part_003 line 141. -/
def msgNoQueries : String := "⚠️ No Power BI queries detected."

/-- Saved-count log of part_003 line 139 (the interpolated count is elided). -/
def msgSaved : String := "💾 Saved Power BI query requests."

/-- The fault environment of one scraper.js run.  loginFails abstracts any
exception thrown by the login statements of lines 55-97 (selector timeout,
missing submit button, navigation timeout); iframeFound is the outcome of
the iframe wait at line 109, whose failure is swallowed; events is the
arrival-ordered network event stream during the wait window; writeFails
abstracts fs.promises.writeFile throwing at line 172. -/
structure ScraperWorld where
  loginFails : Bool
  iframeFound : Bool
  events : List RespEvent
  writeFails : Bool

/-- Body of the try block of the scraper.js IIFE (lines 52-176): the actions
it performs, the buffer it accumulated, and whether an exception escaped to
the catch.  On a login failure nothing was captured yet; the iframe wait
only logs; the write either happens entirely or throws (no partial write is
modelled); the final close of line 176 belongs to the try block. -/
def scraperTry {J : Type} (parse : String → Option J) (w : ScraperWorld) :
    List Action × List (CapturedRecord J) × Bool :=
  if w.loginFails then ([], [], true)
  else
    let iframeLog :=
      if w.iframeFound then Action.logMsg msgIframeFound
      else Action.logMsg msgIframeMissing
    let buf := handleStream parse w.events
    if w.writeFails then ([iframeLog], buf, true)
    else ([iframeLog, Action.write, Action.close], buf, false)

/-- The scraper.js IIFE after a passed environment check (lines 38-184):
launch, then the try block; when an exception escapes, the catch closes the
browser (itself guarded by an inner try/catch) and calls process.exit(1). -/
def scraperRun {J : Type} (parse : String → Option J) (w : ScraperWorld) :
    List Action × List (CapturedRecord J) :=
  match scraperTry parse w with
  | (acts, buf, true) => (Action.launch :: acts ++ [Action.close, Action.exitCall 1], buf)
  | (acts, buf, false) => (Action.launch :: acts ++ [], buf)

/-- The whole scraper.js process (lines 27-184): environment validation
first, exiting 1 with a diagnostic before any browser work when a required
value is missing, otherwise the run itself. -/
def scraperMain {J : Type} (parse : String → Option J) (e : Env)
    (w : ScraperWorld) : List Action × List (CapturedRecord J) :=
  if scraperMissingEnv e then
    ([Action.logMsg msgMissingEnv, Action.exitCall 1], [])
  else scraperRun parse w

/-- The fault environment of one part_001 deepCapture run: loginFails
abstracts any exception thrown between launch and the final close (selector
timeouts, typing into a missing field when credentials are absent, cookie
or navigation failures); events is the merged request stream of the two
attached CDP sessions. -/
structure DeepWorld where
  loginFails : Bool
  events : List ReqEvent

/-- The part_001 program: deepCapture().catch(e => console.error(...)).
part_001 line 7 destructures the environment without any validation, so the
environment argument is never consulted and the launch happens regardless.
When any step throws, the top-level catch only logs: no close, no write,
normal exit code 0.  On the clean path the buffer is written
unconditionally and the browser is closed. -/
def deepCaptureMain001 (_e : Env) (w : DeepWorld) : List Action × List ReqRecord :=
  if w.loginFails then
    ([Action.launch, Action.logMsg msgTopError], [])
  else
    ([Action.launch, Action.write, Action.close], handleStream001 w.events)

/-- The conditional persistence step of part_003 lines 137-142 (part_004
lines 256-261 have the same shape): write only a non-empty buffer,
otherwise print a distinct diagnostic and write nothing. -/
def part003Persist (buf : List Req3Record) : List Action :=
  if 0 < buf.length then [Action.write, Action.logMsg msgSaved]
  else [Action.logMsg msgNoQueries]

/-- Login outcome of a run, per the LoginState terminal states. -/
inductive LoginOutcome where
  | dashboardConfirmed
  | loginFailed
deriving DecidableEq, Repr

/-- The login phase as implemented by every variant under src (for example
scraper.js lines 52-98 and part_003 lines 20-86): a straight-line sequence
executed exactly once inside the surrounding try block, with no retry loop.
ctx n tells whether the n-th whole-flow attempt against the context would
succeed; since the source performs a single attempt, only ctx 0 is ever
consulted.  The second component is the number of attempts performed. -/
def loginRun (ctx : Nat → Bool) : LoginOutcome × Nat :=
  if ctx 0 then (LoginOutcome.dashboardConfirmed, 1)
  else (LoginOutcome.loginFailed, 1)

/-- The iframe polling loop of the targeted variant (third document of
scraper.js, lines 361-368 of the concatenated file): up to the given fuel
of attempts starting at index i, evaluate the selector; break on the first
non-null result.  Returns the result and the number of attempts performed. -/
def findIframeFrom (ctx : Nat → Option String) : Nat → Nat → Option String × Nat
  | i, 0 => (none, i)
  | i, fuel + 1 =>
    match ctx i with
    | some u => (some u, i + 1)
    | none => findIframeFrom ctx (i + 1) fuel

/-- The loop with its source attempt budget of 20. -/
def findIframe (ctx : Nat → Option String) : Option String × Nat :=
  findIframeFrom ctx 0 20

/-- Outcome of the targeted variant after its login phase: whether capture
was attempted, and the write, close and exit behavior. -/
structure TargetedResult where
  captureAttempted : Bool
  writeCount : Nat
  closeCount : Nat
  exitCode : Nat
deriving DecidableEq, Repr

/-- The targeted variant after login (concatenated scraper.js lines
359-411): when the polling loop exhausts with no iframe, it logs, closes
the browser and returns - no capture is attempted and the process ends
normally (exit 0); when an iframe is found it attaches a listener, writes
the buffer unconditionally and closes. -/
def targetedAfterLogin (ctx : Nat → Option String) : TargetedResult :=
  match (findIframe ctx).1 with
  | none => ⟨false, 0, 1, 0⟩
  | some _ => ⟨true, 1, 1, 0⟩

/-- Browser launch mode. -/
inductive Mode where
  | headless
  | headful
deriving DecidableEq, Repr

/-- Run outcome of the capture policy. -/
inductive RunOutcome where
  | captureEmpty
  | captureSucceeded
deriving DecidableEq, Repr

/-- Modelled from the spec: the cyclic capture policy of spec section 4.5 -
the escalation-capable variant is not among the files under src (src holds
only the fixed-window policy), so its wait loop is modelled from the words
of the spec: loop up to the given fuel of cycles, appending the events of
each cycle to the buffer, and exit early as soon as the buffer is
non-empty. -/
def cycleLoop {α : Type} (ev : Nat → List α) : Nat → Nat → List α → List α
  | 0, _, buf => buf
  | fuel + 1, i, buf =>
    match buf ++ ev i with
    | [] => cycleLoop ev fuel (i + 1) []
    | c :: cs => c :: cs

/-- Modelled from the spec: one session of the cyclic policy with its
default budget of 10 cycles (spec section 4.5). -/
def cyclicCaptureRun {α : Type} (ev : Nat → List α) : List α :=
  cycleLoop ev 10 0 []

/-- Result of the escalation-capable run. -/
structure EscalationResult (α : Type) where
  relaunchCount : Nat
  outcome : RunOutcome
  exitCode : Nat
  finalBuffer : List α

/-- Modelled from the spec: the escalation policy of spec section 4.5 - if
all cycles complete with an empty buffer and the session was launched
headless, tear down and relaunch the entire run headful once; if the buffer
is still empty after the escalated run, surface CaptureEmpty as a
non-fatal outcome (exit 0).  ev gives the per-cycle events observable in
each mode. -/
def escalatingRun {α : Type} (ev : Mode → Nat → List α) (startMode : Mode) :
    EscalationResult α :=
  match cyclicCaptureRun (ev startMode) with
  | [] =>
    match startMode with
    | Mode.headless =>
      match cyclicCaptureRun (ev Mode.headful) with
      | [] => ⟨1, RunOutcome.captureEmpty, 0, []⟩
      | c :: cs => ⟨1, RunOutcome.captureSucceeded, 0, c :: cs⟩
    | Mode.headful => ⟨0, RunOutcome.captureEmpty, 0, []⟩
  | c :: cs => ⟨0, RunOutcome.captureSucceeded, 0, c :: cs⟩

/-- A JSON oracle that never parses; used to instantiate generic run models
at the payload type Nat in closed statements. -/
def parseNone : String → Option Nat := fun _ => none

/-- The empty string. -/
def strEmpty : String := ""

/-- The body literal used in concrete instances; JSON.parse succeeds on it. -/
def str1 : String := "1"

/-- A non-JSON string used in concrete instances. -/
def strU : String := "u"

/-- A matching URL for the scraper.js filter. -/
def urlA : String := patDedicated

/-- A URL matching neither filter. -/
def urlX : String := "x"

/-- A URL matching the part_003 filter conjunction. -/
def url3 : String := "QueryExecutionService/public/query"

/-- A JSON oracle that parses exactly the numeral literal, as JSON.parse
does on the body used in the concrete instances. -/
def demoParse : String → Option Nat := fun s => if s = str1 then some 1 else none

/-- A matching fault-free event whose bodies are absent. -/
def evA : RespEvent := ⟨urlA, none, Except.ok strEmpty, false⟩

/-- A non-matching fault-free event. -/
def evX : RespEvent := ⟨urlX, none, Except.ok strEmpty, false⟩

/-- A matching event whose response-body read throws. -/
def evErr : RespEvent := ⟨urlA, none, Except.error (), false⟩

/-- The record produced for evA. -/
def recA : CapturedRecord Nat := ⟨urlA, none, none⟩

/-- A stream with a duplicate matching event around a non-matching one. -/
def evsDup : List RespEvent := [evA, evX, evA]

/-- A part_003 event carrying a JSON-parseable body. -/
def ev3 : Req3Event := ⟨url3, none, some str1⟩

/-- An environment with every variable absent. -/
def envEmpty : Env := ⟨none, none, none, none, none⟩

/-- An environment with all required values present. -/
def envFull : Env := ⟨some strU, some strU, none, none, some strU⟩

/-- A part_001 run in which a login step throws. -/
def dwFail : DeepWorld := ⟨true, []⟩

/-- A scraper.js run in which a login step throws. -/
def swLoginFail : ScraperWorld := ⟨true, false, [], false⟩

/-- A fault-free scraper.js run with no traffic and no iframe detected. -/
def swOk : ScraperWorld := ⟨false, false, [], false⟩

/-- A discovery context that never reports an iframe. -/
def ctxNone : Nat → Option String := fun _ => none

/-- A discovery context that reports an iframe on the third attempt. -/
def ctxAt2 : Nat → Option String := fun i => if i = 2 then some strU else none

/-- A login context that fails its first attempt and would succeed later. -/
def ctxFailThenOk : Nat → Bool := fun n => !(n == 0)

/-- A per-cycle event source that never yields events in either mode. -/
def evEmpty : Mode → Nat → List Nat := fun _ _ => []

/- ------------------------------------------------------------------ -/
/- Helper lemmas shared by the claim theorems.                         -/
/- ------------------------------------------------------------------ -/

/-- Folding the scraper.js handler over a fault-free stream appends exactly
the filtered, arrival-ordered records. -/
theorem handleStream_go {J : Type} (parse : String → Option J) :
    ∀ (evs : List RespEvent) (buf : List (CapturedRecord J)),
      (∀ ev ∈ evs, ev.outerFault = false) →
      evs.foldl (handleResponse parse) buf
        = buf ++ (evs.filter (fun ev => matchesFilter ev.url)).map (mkRecord parse) := by
  intro evs
  induction evs with
  | nil => intro buf _; simp
  | cons e es ih =>
    intro buf h
    have he : e.outerFault = false := h e (by simp)
    have hes : ∀ ev ∈ es, ev.outerFault = false := fun ev hm => h ev (by simp [hm])
    simp only [List.foldl_cons, List.filter_cons]
    cases hm : matchesFilter e.url <;>
      simp [handleResponse, he, hm, ih _ hes]

/-- Folding the part_001 handler appends exactly the filtered,
arrival-ordered records of the merged stream. -/
theorem handleStream001_go :
    ∀ (evs : List ReqEvent) (buf : List ReqRecord),
      evs.foldl handleRequest001 buf
        = buf ++ (evs.filter (fun ev => matchesFilter001 ev.url)).map mkReqRecord001 := by
  intro evs
  induction evs with
  | nil => intro buf; simp
  | cons e es ih =>
    intro buf
    simp only [List.foldl_cons, List.filter_cons]
    cases hm : matchesFilter001 e.url <;> simp [handleRequest001, hm, ih]

/-- The polling loop exhausts its fuel when the context never matches. -/
theorem findIframeFrom_none (ctx : Nat → Option String) :
    ∀ (fuel i : Nat), (∀ k, i ≤ k → k < i + fuel → ctx k = none) →
      findIframeFrom ctx i fuel = (none, i + fuel) := by
  intro fuel
  induction fuel with
  | zero => intro i _; simp [findIframeFrom]
  | succ f ih =>
    intro i h
    have hci : ctx i = none := h i (Nat.le_refl i) (by omega)
    have hstep : findIframeFrom ctx i (f + 1) = findIframeFrom ctx (i + 1) f := by
      simp [findIframeFrom, hci]
    rw [hstep, ih (i + 1) (fun k hk1 hk2 => h k (by omega) (by omega))]
    have harith : i + 1 + f = i + (f + 1) := by omega
    rw [harith]

/-- The polling loop stops at the first matching attempt and performs no
further attempts. -/
theorem findIframeFrom_found (ctx : Nat → Option String) :
    ∀ (fuel i j : Nat) (u : String), i ≤ j → j < i + fuel →
      (∀ k, i ≤ k → k < j → ctx k = none) → ctx j = some u →
      findIframeFrom ctx i fuel = (some u, j + 1) := by
  intro fuel
  induction fuel with
  | zero => intro i j u h1 h2 _ _; omega
  | succ f ih =>
    intro i j u h1 h2 h3 hj
    rcases Nat.eq_or_lt_of_le h1 with heq | hlt
    · subst heq
      simp [findIframeFrom, hj]
    · have hci : ctx i = none := h3 i (Nat.le_refl i) hlt
      have hstep : findIframeFrom ctx i (f + 1) = findIframeFrom ctx (i + 1) f := by
        simp [findIframeFrom, hci]
      rw [hstep]
      exact ih (i + 1) j u (by omega) (by omega)
        (fun k hk1 hk2 => h3 k (by omega) hk2) hj

/- ------------------------------------------------------------------ -/
/- Claim theorems.                                                     -/
/- ------------------------------------------------------------------ -/

/-- C1: the claim says the browser close operation is invoked exactly once
on every exit path of every run.  The main scraper.js IIFE does satisfy
this (second conjunct: one close on every fault combination), but the
part_001 deepCapture program violates it: when any login step throws, the
error lands in the top-level catch, which only logs - close is never
invoked and the browser process is left open (first conjunct evaluates the
part_001 model at that failing input and counts zero closes). -/
theorem c1_part001_leaves_browser_open :
    (deepCaptureMain001 envFull dwFail).1.count Action.close = 0 ∧
    (∀ (w : ScraperWorld), ((scraperRun parseNone w).1.count Action.close) = 1) := by
  refine ⟨rfl, ?_⟩
  intro w
  rcases w with ⟨lf, ifr, evs, wf⟩
  cases lf <;> cases wf <;> cases ifr <;> rfl

/-- C2 counterexample: the login sequence in the sources is a straight-line
block with no retry loop.  Against a context that fails its first attempt
and would succeed on the second (k = 1 < 3 failures), the claim predicts
the confirmed-dashboard state after 2 attempts, but the code surfaces
LoginFailed after exactly 1 attempt; against an always-failing context the
claim predicts exactly 3 attempts, but the code performs 1. -/
theorem c2_counterexample :
    loginRun ctxFailThenOk = (LoginOutcome.loginFailed, 1) ∧
    loginRun (fun _ => false) = (LoginOutcome.loginFailed, 1) ∧
    (LoginOutcome.loginFailed, 1) ≠ (LoginOutcome.dashboardConfirmed, 2) ∧
    (1 : Nat) ≠ 3 := by
  exact ⟨rfl, rfl, by decide, by decide⟩

/-- C2 (amended): the login sequence is attempted exactly once per run: a
context succeeding on its first attempt reaches the confirmed-dashboard
state after exactly 1 attempt; on a first-attempt failure LoginFailed is
surfaced immediately after exactly 1 attempt, with no retry, and the
scraper.js process exits 1. -/
theorem c2_login_single_attempt (ctx : Nat → Bool) (w : ScraperWorld)
    (hc : ctx 0 = false) (hw : w.loginFails = true) :
    loginRun ctx = (LoginOutcome.loginFailed, 1) ∧
    (∀ ctx2 : Nat → Bool, ctx2 0 = true →
      loginRun ctx2 = (LoginOutcome.dashboardConfirmed, 1)) ∧
    (∀ ctx2 : Nat → Bool, (loginRun ctx2).2 = 1) ∧
    exitCodeOf (scraperRun parseNone w).1 = 1 := by
  refine ⟨by simp [loginRun, hc], ?_, ?_, ?_⟩
  · intro ctx2 h2; simp [loginRun, h2]
  · intro ctx2; unfold loginRun; cases hc2 : ctx2 0 <;> simp
  · rcases w with ⟨lf, ifr, evs, wf⟩
    simp only at hw
    subst hw
    rfl

/-- C2 witness: the amended theorem applied to the concrete context that
fails its first attempt, and to a concrete run failing at login. -/
theorem c2_witness :
    ctxFailThenOk 0 = false ∧ swLoginFail.loginFails = true ∧
    loginRun ctxFailThenOk = (LoginOutcome.loginFailed, 1) ∧
    exitCodeOf (scraperRun parseNone swLoginFail).1 = 1 :=
  ⟨rfl, rfl, (c2_login_single_attempt ctxFailThenOk swLoginFail rfl rfl).1,
    (c2_login_single_attempt ctxFailThenOk swLoginFail rfl rfl).2.2.2⟩

/-- C4: feeding any fault-free arrival-ordered stream through the
scraper.js response handler yields exactly the records of the events whose
URL matches the filter disjunction, in arrival order, with non-matching
events excluded and duplicates preserved (the buffer equals filter-then-map
over the stream, so repeated observations give repeated records); the
part_001 handlers over the merged stream of both attached contexts behave
the same way; a single handler step only ever leaves the buffer unchanged
or appends one record, so the buffer is append-only with no reordering or
deduplication. -/
theorem c4_buffer_filter_order {J : Type} (parse : String → Option J)
    (evs : List RespEvent) (fs : List ReqEvent)
    (h : ∀ ev ∈ evs, ev.outerFault = false) :
    handleStream parse evs
      = (evs.filter (fun ev => matchesFilter ev.url)).map (mkRecord parse) ∧
    handleStream001 fs
      = (fs.filter (fun ev => matchesFilter001 ev.url)).map mkReqRecord001 ∧
    (∀ (buf : List (CapturedRecord J)) (ev : RespEvent),
      handleResponse parse buf ev = buf ∨
      handleResponse parse buf ev = buf ++ [mkRecord parse ev]) := by
  refine ⟨?_, ?_, ?_⟩
  · simpa [handleStream] using handleStream_go parse evs [] h
  · simpa [handleStream001] using handleStream001_go fs []
  · intro buf ev
    cases hf : ev.outerFault
    · cases hm : matchesFilter ev.url
      · exact Or.inl (by simp [handleResponse, hf, hm])
      · exact Or.inr (by simp [handleResponse, hf, hm])
    · exact Or.inl (by simp [handleResponse, hf])

/-- C4 witness: the theorem applied to a concrete stream holding a
duplicated matching event around a non-matching one; the buffer keeps both
copies in arrival order and drops the non-matching event. -/
theorem c4_witness :
    (∀ ev ∈ evsDup, ev.outerFault = false) ∧
    handleStream parseNone evsDup = [recA, recA] := by
  refine ⟨by decide, ?_⟩
  rw [(c4_buffer_filter_order parseNone evsDup [] (by decide)).1]
  rfl

/-- C6: the iframe polling loop of the targeted variant returns immediately
with the match found on the first attempt that yields one: if attempts
0..j-1 report nothing and attempt j (within the budget of 20) reports a
URL, the loop returns that URL having performed exactly j+1 attempts,
spending none of the remaining budget. -/
theorem c6_discovery_early_return (ctx : Nat → Option String) (j : Nat)
    (u : String) (hj : j < 20) (hnone : ∀ i, i < j → ctx i = none)
    (hfind : ctx j = some u) :
    findIframe ctx = (some u, j + 1) := by
  unfold findIframe
  exact findIframeFrom_found ctx 20 0 j u (Nat.zero_le j) (by omega)
    (fun k _ hk => hnone k hk) hfind

/-- C6 witness: the theorem applied to a context that reports a URL on its
third attempt; the loop performs exactly 3 of its 20 attempts. -/
theorem c6_witness :
    (2 : Nat) < 20 ∧ (∀ i, i < 2 → ctxAt2 i = none) ∧ ctxAt2 2 = some strU ∧
    findIframe ctxAt2 = (some strU, 3) := by
  refine ⟨by decide, by decide, rfl, ?_⟩
  exact c6_discovery_early_return ctxAt2 2 strU (by decide) (by decide) rfl

/-- C3: against the spec-modelled escalation policy (the escalation-capable
variant is not among the files under src), a run launched headless whose
cyclic wait ends with an empty buffer relaunches in headful mode exactly
once; no run ever relaunches more than once; and when the escalated run
also captures nothing the outcome is CaptureEmpty with exit status 0. -/
theorem c3_escalation_once {α : Type} (ev : Mode → Nat → List α)
    (h1 : cyclicCaptureRun (ev Mode.headless) = []) :
    (escalatingRun ev Mode.headless).relaunchCount = 1 ∧
    (cyclicCaptureRun (ev Mode.headful) = [] →
      (escalatingRun ev Mode.headless).outcome = RunOutcome.captureEmpty ∧
      (escalatingRun ev Mode.headless).exitCode = 0) ∧
    (∀ (ev2 : Mode → Nat → List α) (m : Mode),
      (escalatingRun ev2 m).relaunchCount ≤ 1) := by
  have hmain : escalatingRun ev Mode.headless =
      (match cyclicCaptureRun (ev Mode.headful) with
       | [] => ⟨1, RunOutcome.captureEmpty, 0, []⟩
       | c :: cs => ⟨1, RunOutcome.captureSucceeded, 0, c :: cs⟩) := by
    unfold escalatingRun
    rw [h1]
  refine ⟨?_, ?_, ?_⟩
  · rw [hmain]
    cases h2 : cyclicCaptureRun (ev Mode.headful) <;> simp
  · intro h2
    rw [hmain, h2]
    exact ⟨rfl, rfl⟩
  · intro ev2 m
    unfold escalatingRun
    cases h2 : cyclicCaptureRun (ev2 m)
    · cases m
      · cases h3 : cyclicCaptureRun (ev2 Mode.headful) <;> simp
      · simp
    · simp

/-- C3 witness: the theorem applied to a source that never yields events in
either mode: the headless run ends empty, exactly one headful relaunch is
made, and the outcome is CaptureEmpty with exit status 0. -/
theorem c3_witness :
    cyclicCaptureRun (evEmpty Mode.headless) = [] ∧
    cyclicCaptureRun (evEmpty Mode.headful) = [] ∧
    (escalatingRun evEmpty Mode.headless).relaunchCount = 1 ∧
    (escalatingRun evEmpty Mode.headless).outcome = RunOutcome.captureEmpty ∧
    (escalatingRun evEmpty Mode.headless).exitCode = 0 :=
  ⟨rfl, rfl, (c3_escalation_once evEmpty rfl).1,
    ((c3_escalation_once evEmpty rfl).2.1 rfl).1,
    ((c3_escalation_once evEmpty rfl).2.1 rfl).2⟩

/-- C5 counterexample: the claim says the capture buffer is persisted
exactly once for every run outcome, including failure paths.  In the
scraper.js run that fails at login, the catch block closes the browser and
exits 1 without ever invoking the write, so nothing is persisted. -/
theorem c5_counterexample :
    (scraperRun parseNone swLoginFail).1.count Action.write = 0 ∧
    exitCodeOf (scraperRun parseNone swLoginFail).1 = 1 :=
  ⟨rfl, rfl⟩

/-- C5 (amended): the buffer is persisted exactly once at the end of a
successfully completing run - scraper.js writes the artifact even when the
buffer is empty, while the part_003/part_004 variants write only a
non-empty buffer and otherwise emit a distinct diagnostic; on login-failure
or write-failure paths no artifact is persisted and the process exits
non-zero. -/
theorem c5_persist_per_outcome {J : Type} (parse : String → Option J)
    (w : ScraperWorld) (hl : w.loginFails = false) (hw : w.writeFails = false) :
    (scraperRun parse w).1.count Action.write = 1 ∧
    exitCodeOf (scraperRun parse w).1 = 0 ∧
    (∀ w2 : ScraperWorld, w2.loginFails = true ∨ w2.writeFails = true →
      (scraperRun parse w2).1.count Action.write = 0 ∧
      exitCodeOf (scraperRun parse w2).1 = 1) ∧
    (∀ buf : List Req3Record,
      (part003Persist buf).count Action.write
        = (if buf.length = 0 then 0 else 1) ∧
      (buf.length = 0 → Action.logMsg msgNoQueries ∈ part003Persist buf)) := by
  refine ⟨?_, ?_, ?_, ?_⟩
  · rcases w with ⟨lf, ifr, evs, wf⟩
    simp only at hl hw
    subst hl; subst hw
    cases ifr <;> rfl
  · rcases w with ⟨lf, ifr, evs, wf⟩
    simp only at hl hw
    subst hl; subst hw
    cases ifr <;> rfl
  · intro w2 h2
    rcases w2 with ⟨lf, ifr, evs, wf⟩
    simp only at h2
    rcases h2 with h2 | h2 <;> subst h2
    · exact ⟨rfl, rfl⟩
    · cases lf
      · cases ifr <;> exact ⟨rfl, rfl⟩
      · exact ⟨rfl, rfl⟩
  · intro buf
    cases buf with
    | nil => exact ⟨rfl, fun _ => by simp [part003Persist]⟩
    | cons b bs =>
      refine ⟨?_, ?_⟩
      · simp [part003Persist]
      · intro h
        simp at h

/-- C5 witness: the amended theorem applied to a fault-free run with no
traffic: the empty buffer is still written exactly once and the process
exits 0. -/
theorem c5_witness :
    swOk.loginFails = false ∧ swOk.writeFails = false ∧
    (scraperRun parseNone swOk).1.count Action.write = 1 ∧
    exitCodeOf (scraperRun parseNone swOk).1 = 0 :=
  ⟨rfl, rfl, (c5_persist_per_outcome parseNone swOk rfl rfl).1,
    (c5_persist_per_outcome parseNone swOk rfl rfl).2.1⟩

/-- C7 counterexample: the claim says that after discovery exhausts its
budget the run proceeds with capture against the primary context rather
than terminating.  The targeted-iframe variant does the opposite: when the
20-attempt loop finds nothing it logs, closes the browser and returns -
capture is never attempted (the run does end non-fatally with exit 0). -/
theorem c7_counterexample :
    targetedAfterLogin ctxNone = ⟨false, 0, 1, 0⟩ ∧
    (targetedAfterLogin ctxNone).captureAttempted = false ∧
    (targetedAfterLogin ctxNone).writeCount = 0 :=
  ⟨rfl, rfl, rfl⟩

/-- C7 (amended): when discovery exhausts its attempt budget with zero
matches it returns an empty result and the outcome is non-fatal: the main
scraper.js flow ignores the missed iframe and proceeds with capture against
the primary context (the buffer is still accumulated, written once, exit
0), while the targeted-iframe variant closes the browser and returns
without attempting capture, still exiting 0. -/
theorem c7_exhaustion_nonfatal {J : Type} (parse : String → Option J)
    (ctx : Nat → Option String) (w : ScraperWorld)
    (hex : ∀ i, i < 20 → ctx i = none) (hif : w.iframeFound = false)
    (hl : w.loginFails = false) (hw : w.writeFails = false) :
    findIframe ctx = (none, 20) ∧
    targetedAfterLogin ctx = ⟨false, 0, 1, 0⟩ ∧
    (scraperRun parse w).2 = handleStream parse w.events ∧
    (scraperRun parse w).1.count Action.write = 1 ∧
    exitCodeOf (scraperRun parse w).1 = 0 := by
  have hfind : findIframe ctx = (none, 20) := by
    unfold findIframe
    simpa using findIframeFrom_none ctx 20 0 (fun k _ hk2 => hex k (by omega))
  refine ⟨hfind, ?_, ?_, ?_, ?_⟩
  · unfold targetedAfterLogin
    rw [hfind]
  · rcases w with ⟨lf, ifr, evs, wf⟩
    simp only at hl hw
    subst hl; subst hw
    cases ifr <;> rfl
  · rcases w with ⟨lf, ifr, evs, wf⟩
    simp only at hl hw
    subst hl; subst hw
    cases ifr <;> rfl
  · rcases w with ⟨lf, ifr, evs, wf⟩
    simp only at hl hw
    subst hl; subst hw
    cases ifr <;> rfl

/-- C7 witness: the amended theorem applied to a context that never reports
an iframe and a fault-free run with no traffic. -/
theorem c7_witness :
    (∀ i, i < 20 → ctxNone i = none) ∧ swOk.iframeFound = false ∧
    swOk.loginFails = false ∧ swOk.writeFails = false ∧
    findIframe ctxNone = (none, 20) ∧
    targetedAfterLogin ctxNone = ⟨false, 0, 1, 0⟩ ∧
    exitCodeOf (scraperRun parseNone swOk).1 = 0 :=
  ⟨by decide, rfl, rfl, rfl,
    (c7_exhaustion_nonfatal parseNone ctxNone swOk (by decide) rfl rfl rfl).1,
    (c7_exhaustion_nonfatal parseNone ctxNone swOk (by decide) rfl rfl rfl).2.1,
    (c7_exhaustion_nonfatal parseNone ctxNone swOk (by decide) rfl rfl rfl).2.2.2.2⟩

/-- C8 counterexample: the claim says a missing required key makes the
process exit non-zero with a message before any browser work.  scraper.js
does validate (first conjunct), but the part_001 deepCapture variant
destructures the environment without any check: with every key absent it
still launches the browser (browser work begins) and, when the missing
credentials make a login step throw, the top-level catch only logs and the
process exits 0. -/
theorem c8_counterexample :
    scraperMissingEnv envEmpty = true ∧
    (deepCaptureMain001 envEmpty dwFail).1.count Action.launch = 1 ∧
    (deepCaptureMain001 envEmpty dwFail).1.count (Action.exitCall 1) = 0 ∧
    exitCodeOf (deepCaptureMain001 envEmpty dwFail).1 = 0 :=
  ⟨rfl, rfl, rfl, rfl⟩

/-- C8 (amended): scraper.js validates the entity id, username and password
at startup and, when any is missing or empty, exits 1 with a descriptive
message before any browser work; with all required values present the
validation passes and the run proceeds to launch.  The part_001 deepCapture
variant performs no startup validation and launches the browser regardless
of the environment. -/
theorem c8_env_validation {J : Type} (parse : String → Option J) (e e2 : Env)
    (w : ScraperWorld) (hmiss : scraperMissingEnv e = true)
    (hok : scraperMissingEnv e2 = false) :
    (scraperMain parse e w).1
      = [Action.logMsg msgMissingEnv, Action.exitCall 1] ∧
    exitCodeOf (scraperMain parse e w).1 = 1 ∧
    (scraperMain parse e w).1.count Action.launch = 0 ∧
    (scraperMain parse e2 w).1.head? = some Action.launch ∧
    (∀ (e3 : Env) (w3 : DeepWorld),
      (deepCaptureMain001 e3 w3).1.count Action.launch = 1) := by
  refine ⟨?_, ?_, ?_, ?_, ?_⟩
  · simp [scraperMain, hmiss]
  · simp [scraperMain, hmiss, exitCodeOf]
  · simp [scraperMain, hmiss]
  · have hrun : ((scraperRun parse w).1).head? = some Action.launch := by
      unfold scraperRun
      rcases h : scraperTry parse w with ⟨acts, buf, fail⟩
      cases fail <;> simp
    simpa [scraperMain, hok] using hrun
  · intro e3 w3
    rcases w3 with ⟨lf, evs⟩
    cases lf <;> rfl

/-- C8 witness: the amended theorem applied to the all-absent environment
and to an environment holding all three required values. -/
theorem c8_witness :
    scraperMissingEnv envEmpty = true ∧ scraperMissingEnv envFull = false ∧
    (scraperMain parseNone envEmpty swOk).1
      = [Action.logMsg msgMissingEnv, Action.exitCall 1] ∧
    (scraperMain parseNone envFull swOk).1.head? = some Action.launch :=
  ⟨rfl, rfl, (c8_env_validation parseNone envEmpty envFull swOk rfl rfl).1,
    (c8_env_validation parseNone envEmpty envFull swOk rfl rfl).2.2.2.1⟩

/-- C9 counterexample: the claim says that whenever a captured body string
is JSON-parseable, the parsed value is stored in structured form.  The
part_003 handler never attempts a parse: for an event whose body is the
JSON-parseable literal modelled by demoParse, the appended record stores
the raw string unchanged (its record type carries only an optional string,
so no structured form exists in the artifact). -/
theorem c9_counterexample :
    demoParse str1 = some 1 ∧
    handleRequest003 [] ev3 = [⟨url3, none, some str1⟩] ∧
    (∀ r ∈ handleRequest003 [] ev3, r.body = some str1) := by
  refine ⟨rfl, by decide, by decide⟩

/-- C9 (amended): in scraper.js each captured record's request and response
body, when present, is the JSON-parsed structured value when parsing
succeeds and the raw string unchanged otherwise; in the part_003 variant
every appended record stores the raw post-data string unchanged, with no
parse attempt (parsing is deferred to the downstream parser script). -/
theorem c9_body_storage {J : Type} (parse : String → Option J) (s t : String)
    (j : J) (hs : strTruthy s = true) (hp : parse s = some j)
    (ht : strTruthy t = true) (hn : parse t = none) :
    scraperRequestBody parse (some s) = some (StoredBody.parsed j) ∧
    scraperRequestBody parse (some t) = some (StoredBody.raw t) ∧
    scraperResponseBody parse (Except.ok s) = some (StoredBody.parsed j) ∧
    scraperResponseBody parse (Except.ok t) = some (StoredBody.raw t) ∧
    (∀ (buf : List Req3Record) (ev : Req3Event) (r : Req3Record),
      r ∈ handleRequest003 buf ev → r ∈ buf ∨ r.body = jsOrNull ev.postData) := by
  refine ⟨?_, ?_, ?_, ?_, ?_⟩
  · simp [scraperRequestBody, hs, storedOf, hp]
  · simp [scraperRequestBody, ht, storedOf, hn]
  · simp [scraperResponseBody, hs, storedOf, hp]
  · simp [scraperResponseBody, ht, storedOf, hn]
  · intro buf ev r hr
    unfold handleRequest003 at hr
    cases hm : matchesFilter003 ev.url
    · rw [hm] at hr
      simp at hr
      exact Or.inl hr
    · rw [hm] at hr
      simp at hr
      rcases hr with hr | hr
      · exact Or.inl hr
      · subst hr
        exact Or.inr rfl

/-- C9 witness: the amended theorem applied to the concrete oracle that
parses the literal body and to a non-parseable body. -/
theorem c9_witness :
    strTruthy str1 = true ∧ demoParse str1 = some 1 ∧
    strTruthy strU = true ∧ demoParse strU = none ∧
    scraperRequestBody demoParse (some str1) = some (StoredBody.parsed 1) ∧
    scraperRequestBody demoParse (some strU) = some (StoredBody.raw strU) :=
  ⟨rfl, rfl, rfl, by decide,
    (c9_body_storage demoParse str1 strU 1 rfl rfl rfl (by decide)).1,
    (c9_body_storage demoParse str1 strU 1 rfl rfl rfl (by decide)).2.1⟩

/-- C10 counterexample: the claim says an error raised while reading a
response body leaves the capture buffer unchanged for that event.  In the
scraper.js handler that error is caught by the inner try/catch around
res.text(), the response body is left null, and the record is still
appended: the buffer grows by one record. -/
theorem c10_counterexample :
    evErr.textResult = Except.error () ∧
    handleResponse parseNone [] evErr = [⟨urlA, none, none⟩] ∧
    handleResponse parseNone [] evErr ≠ [] := by
  refine ⟨rfl, by decide, by decide⟩

/-- C10 (amended): no error raised while processing a single event inside
the scraper.js response handler ever propagates: an error thrown outside
the body-reading step lands in the outer catch, is logged, and leaves the
buffer unchanged; an error while reading the response body is caught by the
silent inner handler and the record of the event is still appended, with a
null response body; in every case a handler step either leaves the buffer
unchanged or appends exactly one complete record. -/
theorem c10_handler_fault_containment {J : Type} (parse : String → Option J)
    (ev : RespEvent) (buf : List (CapturedRecord J))
    (hf : ev.outerFault = false) (hm : matchesFilter ev.url = true)
    (he : ev.textResult = Except.error ()) :
    handleResponse parse buf ev
      = buf ++ [⟨ev.url, scraperRequestBody parse ev.postData, none⟩] ∧
    (∀ (ev2 : RespEvent) (buf2 : List (CapturedRecord J)),
      ev2.outerFault = true → handleResponse parse buf2 ev2 = buf2) ∧
    (∀ (ev2 : RespEvent) (buf2 : List (CapturedRecord J)),
      handleResponse parse buf2 ev2 = buf2 ∨
      handleResponse parse buf2 ev2 = buf2 ++ [mkRecord parse ev2]) := by
  refine ⟨?_, ?_, ?_⟩
  · simp [handleResponse, hf, hm, mkRecord, he, scraperResponseBody]
  · intro ev2 buf2 h2
    simp [handleResponse, h2]
  · intro ev2 buf2
    cases hf2 : ev2.outerFault
    · cases hm2 : matchesFilter ev2.url
      · exact Or.inl (by simp [handleResponse, hf2, hm2])
      · exact Or.inr (by simp [handleResponse, hf2, hm2])
    · exact Or.inl (by simp [handleResponse, hf2])

/-- C10 witness: the amended theorem applied to the concrete matching event
whose response-body read throws, starting from the empty buffer. -/
theorem c10_witness :
    evErr.outerFault = false ∧ matchesFilter evErr.url = true ∧
    evErr.textResult = Except.error () ∧
    handleResponse parseNone [] evErr
      = [] ++ [⟨evErr.url, scraperRequestBody parseNone evErr.postData, none⟩] :=
  ⟨rfl, by decide, rfl,
    (c10_handler_fault_containment parseNone evErr [] rfl (by decide) rfl).1⟩

end AutocabCapture
